import Mathlib

/-!
Verification of the tax-return calculation and document-extraction pipeline.

Monetary values and numeric form fields are embedded as rationals (`ℚ`);
the source arithmetic is plain decimal arithmetic on amounts.  JavaScript
truthiness on an optional numeric field (`if (x)`) is embedded as
"present and non-zero"; the `a || b` idiom on numbers is embedded by
`jsOr`.  Effectful wrappers (database access, HTTP, OCR engine calls) are
outside the embedding; the pure computations they wrap are embedded
directly on explicit inputs.
-/

namespace TaxV

/-- Filing statuses accepted by the calculation engine. -/
inductive FilingStatus where
  | SINGLE
  | MARRIED_FILING_JOINTLY
  | MARRIED_FILING_SEPARATELY
  | HEAD_OF_HOUSEHOLD
deriving DecidableEq, Repr

/-- 2024 standard deduction table.  The same literal table appears in both
`calculateTaxReturn` (tax-form-mapping module) and `recalculateTaxReturn`
(accept-entries route); the `|| 14600` fallback in the latter is unreachable
for the four statuses of the enum. -/
def standardDeductions : FilingStatus → ℚ
  | FilingStatus.SINGLE => 14600
  | FilingStatus.MARRIED_FILING_JOINTLY => 29200
  | FilingStatus.MARRIED_FILING_SEPARATELY => 14600
  | FilingStatus.HEAD_OF_HOUSEHOLD => 21900

/-- Result record returned by `calculateTaxReturn`. -/
structure TaxComputationResult where
  totalIncome : ℚ
  adjustedGrossIncome : ℚ
  standardDeduction : ℚ
  taxableIncome : ℚ
  taxLiability : ℚ
  totalCredits : ℚ
  refundAmount : ℚ
  amountOwed : ℚ
deriving DecidableEq, Repr

/-- Embedding of `calculateTaxReturn(totalIncome, totalWithheldTax, filingStatus)`
from the tax-form-mapping module: standard deduction lookup, clamped taxable
income, the 2024 SINGLE bracket chain (zero liability for the other statuses),
and refund/owed split.  `Math.max` is `max`; `totalPayments > tax` is
`tax < totalPayments`. -/
def calculateTaxReturn (totalIncome totalWithheldTax : ℚ)
    (filingStatus : FilingStatus) : TaxComputationResult :=
  let adjustedGrossIncome := totalIncome
  let standardDeduction := standardDeductions filingStatus
  let taxableIncome := max 0 (adjustedGrossIncome - standardDeduction)
  let tax : ℚ :=
    if filingStatus = FilingStatus.SINGLE then
      if taxableIncome ≤ 11600 then taxableIncome * 0.10
      else if taxableIncome ≤ 47150 then 1160 + (taxableIncome - 11600) * 0.12
      else if taxableIncome ≤ 100525 then 5426 + (taxableIncome - 47150) * 0.22
      else if taxableIncome ≤ 191950 then 17168.50 + (taxableIncome - 100525) * 0.24
      else if taxableIncome ≤ 243725 then 39110.50 + (taxableIncome - 191950) * 0.32
      else if taxableIncome ≤ 609350 then 55678.50 + (taxableIncome - 243725) * 0.35
      else 183647.25 + (taxableIncome - 609350) * 0.37
    else 0
  let totalPayments := totalWithheldTax
  let refundAmount := if tax < totalPayments then totalPayments - tax else 0
  let amountOwed := if totalPayments < tax then tax - totalPayments else 0
  { totalIncome := adjustedGrossIncome
    adjustedGrossIncome := adjustedGrossIncome
    standardDeduction := standardDeduction
    taxableIncome := taxableIncome
    taxLiability := tax
    totalCredits := 0
    refundAmount := refundAmount
    amountOwed := amountOwed }

/-- Fields written back by `recalculateTaxReturn` in the accept-entries route. -/
structure RecalcResult where
  totalIncome : ℚ
  adjustedGrossIncome : ℚ
  standardDeduction : ℚ
  itemizedDeduction : ℚ
  taxableIncome : ℚ
  taxLiability : ℚ
  refundAmount : ℚ
  amountOwed : ℚ
deriving DecidableEq, Repr

/-- Embedding of the pure computation slice of `recalculateTaxReturn` from the
accept-entries route: `totalIncome` and `totalDeductions` are the income and
deduction sums it reads from storage.  Deduction applied is
`max(standardDeduction, itemizedDeduction)`; the refund/owed split here
ignores withholding (refund is `|tax|` when the liability is non-positive). -/
def recalculateTaxReturnTotals (totalIncome totalDeductions : ℚ)
    (filingStatus : FilingStatus) : RecalcResult :=
  let adjustedGrossIncome := totalIncome
  let standardDeduction := standardDeductions filingStatus
  let itemizedDeduction := totalDeductions
  let deduction := max standardDeduction itemizedDeduction
  let taxableIncome := max 0 (adjustedGrossIncome - deduction)
  let taxLiability : ℚ :=
    if filingStatus = FilingStatus.SINGLE then
      if taxableIncome ≤ 11600 then taxableIncome * 0.10
      else if taxableIncome ≤ 47150 then 1160 + (taxableIncome - 11600) * 0.12
      else if taxableIncome ≤ 100525 then 5426 + (taxableIncome - 47150) * 0.22
      else if taxableIncome ≤ 191950 then 17168.50 + (taxableIncome - 100525) * 0.24
      else if taxableIncome ≤ 243725 then 39110.50 + (taxableIncome - 191950) * 0.32
      else if taxableIncome ≤ 609350 then 55678.50 + (taxableIncome - 243725) * 0.35
      else 183647.25 + (taxableIncome - 609350) * 0.37
    else 0
  let refundAmount := if taxLiability ≤ 0 then |taxLiability| else 0
  let amountOwed := if 0 < taxLiability then taxLiability else 0
  { totalIncome := totalIncome
    adjustedGrossIncome := adjustedGrossIncome
    standardDeduction := standardDeduction
    itemizedDeduction := itemizedDeduction
    taxableIncome := taxableIncome
    taxLiability := taxLiability
    refundAmount := refundAmount
    amountOwed := amountOwed }

/-- Modelled from the spec: the SINGLE bracket schedule as rows
(upper bound, base tax at the lower bound, marginal rate); the lower bound of
each row is the previous upper bound (0 for the first row); the last row is
unbounded above. -/
def singleScheduleRows : List (Option ℚ × ℚ × ℚ) :=
  [(some 11600, 0, 0.10), (some 47150, 1160, 0.12), (some 100525, 5426, 0.22),
   (some 191950, 17168.50, 0.24), (some 243725, 39110.50, 0.32),
   (some 609350, 55678.50, 0.35), (none, 183647.25, 0.37)]

/-- Modelled from the spec: `tax = baseAtLowerBound + (taxableIncome − lowerBound)
× marginalRate` for the bracket containing the taxable income. -/
def scheduleTax (lower t : ℚ) : List (Option ℚ × ℚ × ℚ) → ℚ
  | [] => 0
  | (some u, base, rate) :: rest =>
      if t ≤ u then base + (t - lower) * rate else scheduleTax u t rest
  | (none, base, rate) :: _ => base + (t - lower) * rate

/-- Modelled from the spec: the progressive-bracket formula over the 2024
SINGLE schedule. -/
def specSingleTax (t : ℚ) : ℚ := scheduleTax 0 t singleScheduleRows

lemma calc_refund_def (inc w : ℚ) (st : FilingStatus) :
    (calculateTaxReturn inc w st).refundAmount
      = (if (calculateTaxReturn inc w st).taxLiability < w
          then w - (calculateTaxReturn inc w st).taxLiability else 0) := by
  simp only [calculateTaxReturn]

lemma calc_owed_def (inc w : ℚ) (st : FilingStatus) :
    (calculateTaxReturn inc w st).amountOwed
      = (if w < (calculateTaxReturn inc w st).taxLiability
          then (calculateTaxReturn inc w st).taxLiability - w else 0) := by
  simp only [calculateTaxReturn]

lemma calc_tax_nonsingle (inc w : ℚ) (st : FilingStatus)
    (h : st ≠ FilingStatus.SINGLE) :
    (calculateTaxReturn inc w st).taxLiability = 0 := by
  simp only [calculateTaxReturn, if_neg h]

/-- Claim C1: for a SINGLE filer, `calculateTaxReturn` computes the liability
by the progressive-bracket formula over the 2024 schedule with boundaries
11600 / 47150 / 100525 / 191950 / 243725 / 609350, base taxes
0 / 1160 / 5426 / 17168.50 / 39110.50 / 55678.50 / 183647.25 and rates
10% / 12% / 22% / 24% / 32% / 35% / 37%; in particular, a total income of
60000 with the standard deduction gives taxable income 45400 and liability
1160 + (45400 − 11600) × 0.12 = 5216. -/
theorem c1_single_progressive_brackets :
    (∀ inc w : ℚ, (calculateTaxReturn inc w FilingStatus.SINGLE).taxLiability
        = specSingleTax (calculateTaxReturn inc w FilingStatus.SINGLE).taxableIncome)
    ∧ (calculateTaxReturn 60000 0 FilingStatus.SINGLE).taxableIncome = 45400
    ∧ (calculateTaxReturn 60000 0 FilingStatus.SINGLE).taxLiability = 5216
    ∧ (5216 : ℚ) = 1160 + (45400 - 11600) * 0.12 := by
  refine ⟨?_, ?_, ?_, by norm_num⟩
  · intro inc w
    simp only [calculateTaxReturn, specSingleTax, singleScheduleRows, scheduleTax,
      if_pos rfl]
    split_ifs <;> ring
  · norm_num [calculateTaxReturn, standardDeductions]
  · norm_num [calculateTaxReturn, standardDeductions]

/-- Claim C2: the calculation engine applies the deduction
`max(standardDeduction, itemizedDeduction ?? 0)` with the 2024 table
(14600 SINGLE and MARRIED_FILING_SEPARATELY, 29200 MARRIED_FILING_JOINTLY,
21900 HEAD_OF_HOUSEHOLD) and returns `taxableIncome = max(0, totalIncome −
deduction)`: `recalculateTaxReturn` covers the itemized-deduction-present
case, `calculateTaxReturn` the absent case (`?? 0`); whenever the itemized
deduction exceeds the standard deduction, the itemized amount is subtracted. -/
theorem c2_deduction_max_std_itemized :
    (∀ inc ded : ℚ, ∀ st : FilingStatus,
        (recalculateTaxReturnTotals inc ded st).taxableIncome
          = max 0 (inc - max (standardDeductions st) ded)
        ∧ (recalculateTaxReturnTotals inc ded st).standardDeduction = standardDeductions st
        ∧ (recalculateTaxReturnTotals inc ded st).itemizedDeduction = ded)
    ∧ (standardDeductions FilingStatus.SINGLE = 14600
        ∧ standardDeductions FilingStatus.MARRIED_FILING_SEPARATELY = 14600
        ∧ standardDeductions FilingStatus.MARRIED_FILING_JOINTLY = 29200
        ∧ standardDeductions FilingStatus.HEAD_OF_HOUSEHOLD = 21900)
    ∧ (∀ inc w : ℚ, ∀ st : FilingStatus,
        (calculateTaxReturn inc w st).taxableIncome
          = max 0 (inc - max (standardDeductions st) 0))
    ∧ (∀ inc ded : ℚ, ∀ st : FilingStatus, standardDeductions st < ded →
        (recalculateTaxReturnTotals inc ded st).taxableIncome = max 0 (inc - ded)) := by
  refine ⟨?_, by norm_num [standardDeductions], ?_, ?_⟩
  · intro inc ded st
    refine ⟨?_, rfl, rfl⟩
    simp only [recalculateTaxReturnTotals]
  · intro inc w st
    have hst : (0 : ℚ) ≤ standardDeductions st := by
      cases st <;> norm_num [standardDeductions]
    simp only [calculateTaxReturn, max_eq_left hst]
  · intro inc ded st h
    simp only [recalculateTaxReturnTotals, max_eq_right (le_of_lt h)]

/-- Claim C2 witness: with income 50000 and an itemized deduction 20000 that
exceeds the SINGLE standard deduction 14600, the itemized amount is the one
subtracted. -/
theorem c2_deduction_max_std_itemized_witness :
    (recalculateTaxReturnTotals 50000 20000 FilingStatus.SINGLE).taxableIncome
      = max 0 (50000 - 20000) :=
  c2_deduction_max_std_itemized.2.2.2 50000 20000 FilingStatus.SINGLE
    (by norm_num [standardDeductions])

/-- Claim C3 counterexample: with zero income and zero withholding (SINGLE),
payments equal the liability and both `refundAmount` and `amountOwed` are
zero, so it is not the case that exactly one of them is non-zero. -/
theorem c3_exactly_one_counterexample :
    (calculateTaxReturn 0 0 FilingStatus.SINGLE).taxLiability = 0
    ∧ (calculateTaxReturn 0 0 FilingStatus.SINGLE).refundAmount = 0
    ∧ (calculateTaxReturn 0 0 FilingStatus.SINGLE).amountOwed = 0
    ∧ ¬ ((calculateTaxReturn 0 0 FilingStatus.SINGLE).refundAmount ≠ 0
          ∨ (calculateTaxReturn 0 0 FilingStatus.SINGLE).amountOwed ≠ 0) := by
  norm_num [calculateTaxReturn, standardDeductions]

/-- Claim C3 amended: `refundAmount = max(0, payments − liability)` and
`amountOwed = max(0, liability − payments)`, each is non-negative, never are
both non-zero, and AT MOST one is non-zero: both are zero exactly when the
payments equal the liability. -/
theorem c3_refund_owed_amended :
    ∀ inc w : ℚ, ∀ st : FilingStatus,
      (calculateTaxReturn inc w st).refundAmount
          = max 0 (w - (calculateTaxReturn inc w st).taxLiability)
      ∧ (calculateTaxReturn inc w st).amountOwed
          = max 0 ((calculateTaxReturn inc w st).taxLiability - w)
      ∧ 0 ≤ (calculateTaxReturn inc w st).refundAmount
      ∧ 0 ≤ (calculateTaxReturn inc w st).amountOwed
      ∧ ¬ ((calculateTaxReturn inc w st).refundAmount ≠ 0
            ∧ (calculateTaxReturn inc w st).amountOwed ≠ 0)
      ∧ (((calculateTaxReturn inc w st).refundAmount = 0
            ∧ (calculateTaxReturn inc w st).amountOwed = 0)
          ↔ (calculateTaxReturn inc w st).taxLiability = w) := by
  intro inc w st
  rw [calc_refund_def, calc_owed_def]
  set T := (calculateTaxReturn inc w st).taxLiability with hT
  rcases lt_trichotomy T w with h | h | h
  · rw [if_pos h, if_neg (not_lt.mpr h.le)]
    refine ⟨(max_eq_right (by linarith)).symm, (max_eq_left (by linarith)).symm,
      by linarith, le_refl 0, ?_, ?_⟩
    · rintro ⟨_, ho⟩
      exact ho rfl
    · constructor
      · rintro ⟨hr, _⟩
        linarith
      · intro hw
        exact absurd hw (ne_of_lt h)
  · rw [if_neg (not_lt.mpr h.ge), if_neg (not_lt.mpr h.le)]
    refine ⟨(max_eq_left (by linarith)).symm, (max_eq_left (by linarith)).symm,
      le_refl 0, le_refl 0, ?_, ?_⟩
    · rintro ⟨hr, _⟩
      exact hr rfl
    · constructor
      · intro _
        exact h
      · intro _
        exact ⟨rfl, rfl⟩
  · rw [if_neg (not_lt.mpr h.le), if_pos h]
    refine ⟨(max_eq_left (by linarith)).symm, (max_eq_right (by linarith)).symm,
      le_refl 0, by linarith, ?_, ?_⟩
    · rintro ⟨hr, _⟩
      exact hr rfl
    · constructor
      · rintro ⟨_, ho⟩
        linarith
      · intro hw
        exact absurd hw.symm (ne_of_lt h)

/-- Claim C4: for any filing status other than SINGLE, `calculateTaxReturn`
returns zero liability regardless of taxable income; with non-negative
withheld tax the refund is the full withheld amount and nothing is owed. -/
theorem c4_nonsingle_zero_liability :
    ∀ inc w : ℚ, ∀ st : FilingStatus, st ≠ FilingStatus.SINGLE →
      0 ≤ inc → 0 ≤ w →
      (calculateTaxReturn inc w st).taxLiability = 0
      ∧ (calculateTaxReturn inc w st).refundAmount = w
      ∧ (calculateTaxReturn inc w st).amountOwed = 0 := by
  intro inc w st hst _ hw
  have hT := calc_tax_nonsingle inc w st hst
  refine ⟨hT, ?_, ?_⟩
  · rw [calc_refund_def, hT]
    rcases eq_or_lt_of_le hw with h | h
    · rw [if_neg (not_lt.mpr (le_of_eq h.symm))]
      exact h
    · rw [if_pos h]
      ring
  · rw [calc_owed_def, hT, if_neg (not_lt.mpr hw)]

/-- Claim C4 witness: a MARRIED_FILING_JOINTLY filer with income 10000 and
withheld tax 250 gets liability 0, refund 250, nothing owed. -/
theorem c4_nonsingle_zero_liability_witness :
    (calculateTaxReturn 10000 250 FilingStatus.MARRIED_FILING_JOINTLY).taxLiability = 0
    ∧ (calculateTaxReturn 10000 250 FilingStatus.MARRIED_FILING_JOINTLY).refundAmount = 250
    ∧ (calculateTaxReturn 10000 250 FilingStatus.MARRIED_FILING_JOINTLY).amountOwed = 0 :=
  c4_nonsingle_zero_liability 10000 250 FilingStatus.MARRIED_FILING_JOINTLY
    (by decide) (by norm_num) (by norm_num)

/-- Claim C9 (code evidence): on the invalid input `totalIncome = −100`,
`calculateTaxReturn` does not fail; it silently clamps the taxable income to
0 and returns a numeric result with zero liability, refund and amount owed,
echoing the negative income. -/
theorem c9_negative_income_silently_clamped :
    (calculateTaxReturn (-100) 0 FilingStatus.SINGLE).taxableIncome = 0
    ∧ (calculateTaxReturn (-100) 0 FilingStatus.SINGLE).taxLiability = 0
    ∧ (calculateTaxReturn (-100) 0 FilingStatus.SINGLE).refundAmount = 0
    ∧ (calculateTaxReturn (-100) 0 FilingStatus.SINGLE).amountOwed = 0
    ∧ (calculateTaxReturn (-100) 0 FilingStatus.SINGLE).totalIncome = -100 := by
  norm_num [calculateTaxReturn, standardDeductions]

/-- Income categories used by the line-item mapper. -/
inductive IncomeType where
  | WAGES
  | INTEREST
  | DIVIDENDS
  | BUSINESS_INCOME
  | RETIREMENT_DISTRIBUTIONS
  | OTHER_INCOME
deriving DecidableEq, Repr

/-- One income line item produced by the mapper. -/
structure IncomeEntry where
  incomeType : IncomeType
  description : String
  amount : ℚ
  payerName : Option String
  payerTIN : Option String
deriving DecidableEq, Repr

/-- Result of parsing one document (`ExtractedTaxData` of the OCR module).
`formType` is an open string (the parsers produce `FORM_1099_NEC`,
`FORM_1099_INT`, `FORM_1099_DIV`, `FORM_1099_MISC`, `FORM_1099_R` or
`UNKNOWN`); `amounts` is the dynamically keyed field bag, embedded as an
association list in object insertion order. -/
structure ExtractedTaxData where
  formType : String
  taxYear : Option ℤ
  payerName : Option String
  payerTIN : Option String
  recipientName : Option String
  recipientTIN : Option String
  amounts : List (String × ℚ)
  rawText : Option String
deriving DecidableEq, Repr

/-- Aggregate result of `mapExtractedDataToIncomeEntries`. -/
structure TaxFormMapping where
  incomeEntries : List IncomeEntry
  withheldTax : ℚ
  taxYear : ℤ
deriving DecidableEq, Repr

/-- The `${form.payerName ? ` from ${form.payerName}` : ''}` template suffix;
an empty payer name is falsy in the source and yields no suffix. -/
def payerSuffix (p : Option String) : String :=
  match p with
  | some n => if n = "" then "" else " from " ++ n
  | none => ""

/-- JavaScript `a || b` on an optional number: an absent or zero (falsy)
`a` yields `b`. -/
def jsOr (a : Option ℚ) (b : ℚ) : ℚ :=
  match a with
  | some v => if v = 0 then b else v
  | none => b

/-- Contribution of one form to the withheld-tax total: the
`federalIncomeTaxWithheld` field is added when it is present and truthy. -/
def withheldContribution (form : ExtractedTaxData) : ℚ :=
  match form.amounts.lookup "federalIncomeTaxWithheld" with
  | some v => if v = 0 then 0 else v
  | none => 0

/-- The default (unknown form type) branch of the mapper switch: one
OTHER_INCOME line per positive numeric field other than the withheld tax. -/
def unknownFormEntries (form : ExtractedTaxData) : List IncomeEntry :=
  form.amounts.filterMap (fun kv =>
    if 0 < kv.2 ∧ kv.1 ≠ "federalIncomeTaxWithheld" then
      some { incomeType := IncomeType.OTHER_INCOME,
             description := "Unknown Form: " ++ kv.1 ++ payerSuffix form.payerName,
             amount := kv.2,
             payerName := form.payerName,
             payerTIN := form.payerTIN }
    else none)

/-- Income line items contributed by one form: the body of the
`switch (form.formType)` in `mapExtractedDataToIncomeEntries`.  A guard of
the shape `if (x && x > 0)` is embedded as `x ≠ 0 ∧ 0 < x` on the present
value; the 1099-R source amount is `taxableAmount || grossDistribution || 0`. -/
def formEntries (form : ExtractedTaxData) : List IncomeEntry :=
  if form.formType = "FORM_1099_NEC" then
    match form.amounts.lookup "nonemployeeCompensation" with
    | some v =>
        if v ≠ 0 ∧ 0 < v then
          [ { incomeType := IncomeType.BUSINESS_INCOME,
              description := "1099-NEC: Nonemployee Compensation" ++ payerSuffix form.payerName,
              amount := v, payerName := form.payerName, payerTIN := form.payerTIN } ]
        else []
    | none => []
  else if form.formType = "FORM_1099_INT" then
    match form.amounts.lookup "interestIncome" with
    | some v =>
        if v ≠ 0 ∧ 0 < v then
          [ { incomeType := IncomeType.INTEREST,
              description := "1099-INT: Interest Income" ++ payerSuffix form.payerName,
              amount := v, payerName := form.payerName, payerTIN := form.payerTIN } ]
        else []
    | none => []
  else if form.formType = "FORM_1099_DIV" then
    (match form.amounts.lookup "ordinaryDividends" with
     | some v =>
        if v ≠ 0 ∧ 0 < v then
          [ { incomeType := IncomeType.DIVIDENDS,
              description := "1099-DIV: Ordinary Dividends" ++ payerSuffix form.payerName,
              amount := v, payerName := form.payerName, payerTIN := form.payerTIN } ]
        else []
     | none => [])
    ++
    (match form.amounts.lookup "qualifiedDividends" with
     | some v =>
        if v ≠ 0 ∧ 0 < v then
          [ { incomeType := IncomeType.DIVIDENDS,
              description := "1099-DIV: Qualified Dividends" ++ payerSuffix form.payerName,
              amount := v, payerName := form.payerName, payerTIN := form.payerTIN } ]
        else []
     | none => [])
  else if form.formType = "FORM_1099_MISC" then
    (match form.amounts.lookup "rents" with
     | some v =>
        if v ≠ 0 ∧ 0 < v then
          [ { incomeType := IncomeType.OTHER_INCOME,
              description := "1099-MISC: Rent Income" ++ payerSuffix form.payerName,
              amount := v, payerName := form.payerName, payerTIN := form.payerTIN } ]
        else []
     | none => [])
    ++
    (match form.amounts.lookup "miscellaneousIncome" with
     | some v =>
        if v ≠ 0 ∧ 0 < v then
          [ { incomeType := IncomeType.OTHER_INCOME,
              description := "1099-MISC: Miscellaneous Income" ++ payerSuffix form.payerName,
              amount := v, payerName := form.payerName, payerTIN := form.payerTIN } ]
        else []
     | none => [])
  else if form.formType = "FORM_1099_R" then
    let taxableAmount :=
      jsOr (form.amounts.lookup "taxableAmount")
        (jsOr (form.amounts.lookup "grossDistribution") 0)
    if 0 < taxableAmount then
      [ { incomeType := IncomeType.RETIREMENT_DISTRIBUTIONS,
          description := "1099-R: Retirement Distribution" ++ payerSuffix form.payerName,
          amount := taxableAmount, payerName := form.payerName, payerTIN := form.payerTIN } ]
    else []
  else
    unknownFormEntries form

/-- `if (form.taxYear) taxYear = form.taxYear` — last truthy year wins. -/
def taxYearUpdate (year : ℤ) (form : ExtractedTaxData) : ℤ :=
  match form.taxYear with
  | some y => if y = 0 then year else y
  | none => year

/-- The `forEach` loop of `mapExtractedDataToIncomeEntries`, processing the
forms in order with the running default tax year. -/
def mapGo (year : ℤ) : List ExtractedTaxData → TaxFormMapping
  | [] => { incomeEntries := [], withheldTax := 0, taxYear := year }
  | form :: rest =>
      let tail := mapGo (taxYearUpdate year form) rest
      { incomeEntries := formEntries form ++ tail.incomeEntries
        withheldTax := withheldContribution form + tail.withheldTax
        taxYear := tail.taxYear }

/-- Embedding of `mapExtractedDataToIncomeEntries(extractedForms)`.
`defaultYear` stands for the ambient `new Date().getFullYear() - 1` initial
value of the tax year, passed explicitly. -/
def mapExtractedDataToIncomeEntries (defaultYear : ℤ)
    (extractedForms : List ExtractedTaxData) : TaxFormMapping :=
  mapGo defaultYear extractedForms

lemma withheldContribution_eq_getD (form : ExtractedTaxData) :
    withheldContribution form
      = (form.amounts.lookup "federalIncomeTaxWithheld").getD 0 := by
  rw [withheldContribution]
  cases h : form.amounts.lookup "federalIncomeTaxWithheld" with
  | none => rfl
  | some v =>
      simp only [Option.getD_some]
      split_ifs with h0
      · exact h0.symm
      · rfl

/-- The sample 1099-NEC of the mapping scenario.  -/
def nec5000 : ExtractedTaxData :=
  { formType := "FORM_1099_NEC", taxYear := none, payerName := none,
    payerTIN := none, recipientName := none, recipientTIN := none,
    amounts := [("nonemployeeCompensation", 5000), ("federalIncomeTaxWithheld", 500)],
    rawText := none }

/-- Claim C5: the mapper's withheld-tax total is the sum of the
`federalIncomeTaxWithheld` field over all forms that carry it, independent of
form type and of whether an income rule fired; a single 1099-NEC with
nonemployee compensation 5000 and withheld tax 500 yields exactly one
BUSINESS_INCOME line item of 5000 and a withheld-tax total of 500. -/
theorem c5_withheld_sum :
    (∀ (y : ℤ) (forms : List ExtractedTaxData),
        (mapExtractedDataToIncomeEntries y forms).withheldTax
          = (forms.map
              (fun f => ((f.amounts.lookup "federalIncomeTaxWithheld").getD 0))).sum)
    ∧ (mapExtractedDataToIncomeEntries 2023 [nec5000]).incomeEntries
        = [ { incomeType := IncomeType.BUSINESS_INCOME,
              description := "1099-NEC: Nonemployee Compensation",
              amount := 5000, payerName := none, payerTIN := none } ]
    ∧ (mapExtractedDataToIncomeEntries 2023 [nec5000]).withheldTax = 500 := by
  refine ⟨?_, by decide,
    by simp [mapExtractedDataToIncomeEntries, mapGo, withheldContribution, nec5000,
      List.lookup]⟩
  intro y forms
  induction forms generalizing y with
  | nil => simp [mapExtractedDataToIncomeEntries, mapGo]
  | cons f rest ih =>
      simp only [mapExtractedDataToIncomeEntries, mapGo, List.map_cons, List.sum_cons]
      rw [withheldContribution_eq_getD]
      exact congrArg _ (ih (taxYearUpdate y f))

/-- The 1099-R of the C6 counterexample: `taxableAmount` present with value
0, `grossDistribution` positive. -/
def r1099ZeroTaxable : ExtractedTaxData :=
  { formType := "FORM_1099_R", taxYear := none, payerName := none,
    payerTIN := none, recipientName := none, recipientTIN := none,
    amounts := [("taxableAmount", 0), ("grossDistribution", 5000)],
    rawText := none }

/-- Claim C6 counterexample: a 1099-R whose `taxableAmount` is present with
value 0 and whose `grossDistribution` is 5000 DOES produce a
RETIREMENT_DISTRIBUTIONS line item (of 5000): the fallback to the gross
distribution is by JavaScript falsiness (absent OR zero), not by absence
alone, contradicting the claim that such a form produces no retirement line
item. -/
theorem c6_zero_taxable_counterexample :
    (mapExtractedDataToIncomeEntries 2023 [r1099ZeroTaxable]).incomeEntries
      = [ { incomeType := IncomeType.RETIREMENT_DISTRIBUTIONS,
            description := "1099-R: Retirement Distribution",
            amount := 5000, payerName := none, payerTIN := none } ]
    ∧ (mapExtractedDataToIncomeEntries 2023 [r1099ZeroTaxable]).incomeEntries ≠ [] := by
  refine ⟨by decide, by decide⟩

/-- Claim C6 amended: for every 1099-R form the mapper takes the source
amount `taxableAmount || grossDistribution || 0` — so the fallback to the
gross distribution happens when the taxable amount is absent OR zero — and
produces a single RETIREMENT_DISTRIBUTIONS line item exactly when that
chosen amount is strictly positive. -/
theorem c6_retirement_rule_amended :
    ∀ (y : ℤ) (f : ExtractedTaxData), f.formType = "FORM_1099_R" →
      (mapExtractedDataToIncomeEntries y [f]).incomeEntries
        = (if 0 < jsOr (f.amounts.lookup "taxableAmount")
                  (jsOr (f.amounts.lookup "grossDistribution") 0)
            then [ { incomeType := IncomeType.RETIREMENT_DISTRIBUTIONS,
                     description := "1099-R: Retirement Distribution"
                        ++ payerSuffix f.payerName,
                     amount := jsOr (f.amounts.lookup "taxableAmount")
                        (jsOr (f.amounts.lookup "grossDistribution") 0),
                     payerName := f.payerName, payerTIN := f.payerTIN } ]
            else []) := by
  intro y f hf
  have hent : (mapExtractedDataToIncomeEntries y [f]).incomeEntries = formEntries f := by
    simp [mapExtractedDataToIncomeEntries, mapGo]
  rw [hent, formEntries, hf]
  simp

/-- The 1099-R used by the C6 witness: taxable amount present and positive. -/
def r1099Taxable2000 : ExtractedTaxData :=
  { formType := "FORM_1099_R", taxYear := none, payerName := none,
    payerTIN := none, recipientName := none, recipientTIN := none,
    amounts := [("taxableAmount", 2000), ("grossDistribution", 5000)],
    rawText := none }

/-- Claim C6 amended, witness: the amended rule instantiated on a concrete
1099-R with a positive taxable amount. -/
theorem c6_retirement_rule_amended_witness :
    (mapExtractedDataToIncomeEntries 2023 [r1099Taxable2000]).incomeEntries
      = (if 0 < jsOr (r1099Taxable2000.amounts.lookup "taxableAmount")
                (jsOr (r1099Taxable2000.amounts.lookup "grossDistribution") 0)
          then [ { incomeType := IncomeType.RETIREMENT_DISTRIBUTIONS,
                   description := "1099-R: Retirement Distribution"
                      ++ payerSuffix r1099Taxable2000.payerName,
                   amount := jsOr (r1099Taxable2000.amounts.lookup "taxableAmount")
                      (jsOr (r1099Taxable2000.amounts.lookup "grossDistribution") 0),
                   payerName := r1099Taxable2000.payerName,
                   payerTIN := r1099Taxable2000.payerTIN } ]
          else []) :=
  c6_retirement_rule_amended 2023 r1099Taxable2000 rfl

/-- `needle.isPrefixOf hay` on character lists. -/
def charsPrefix : List Char → List Char → Bool
  | [], _ => true
  | _ :: _, [] => false
  | c :: cs, d :: ds => c == d && charsPrefix cs ds

/-- Substring test on character lists (JavaScript `String.includes`). -/
def charsInfix (needle : List Char) : List Char → Bool
  | [] => needle.isEmpty
  | d :: ds => charsPrefix needle (d :: ds) || charsInfix needle ds

/-- `text.includes(pat)`. -/
def textIncludes (text pat : String) : Bool :=
  charsInfix pat.toList text.toList

/-- The NEC keyword test of `extractDataFromTaxForm`. -/
def classifiesAsNEC (text : String) : Bool :=
  textIncludes text "1099-NEC" || textIncludes text "Nonemployee compensation"

/-- The INT keyword test of `extractDataFromTaxForm`. -/
def classifiesAsINT (text : String) : Bool :=
  textIncludes text "1099-INT" || textIncludes text "Interest income"

/-- The DIV keyword test of `extractDataFromTaxForm`. -/
def classifiesAsDIV (text : String) : Bool :=
  textIncludes text "1099-DIV" || textIncludes text "dividends"

/-- The MISC keyword test of `extractDataFromTaxForm`. -/
def classifiesAsMISC (text : String) : Bool :=
  textIncludes text "1099-MISC" || textIncludes text "Miscellaneous income"

/-- The R keyword test of `extractDataFromTaxForm`. -/
def classifiesAsR (text : String) : Bool :=
  textIncludes text "1099-R" || textIncludes text "distribution"

/-- The form-type decision chain of `extractDataFromTaxForm`: each parser
stamps the form type returned here onto its result, and the final else
returns an `UNKNOWN` form with no amounts. -/
def classifyFormType (text : String) : String :=
  if classifiesAsNEC text then "FORM_1099_NEC"
  else if classifiesAsINT text then "FORM_1099_INT"
  else if classifiesAsDIV text then "FORM_1099_DIV"
  else if classifiesAsMISC text then "FORM_1099_MISC"
  else if classifiesAsR text then "FORM_1099_R"
  else "UNKNOWN"

/-- Claim C7: classification scans the text for form keywords in the fixed
priority order NEC, INT, DIV, MISC, R, first match selecting the parser;
with no match the form type is UNKNOWN, and every positive amount of an
UNKNOWN form other than the withheld tax is attributed by the mapper to an
OTHER_INCOME line item rather than discarded. -/
theorem c7_classifier_priority_and_catchall :
    (∀ t : String, classifiesAsNEC t = true → classifyFormType t = "FORM_1099_NEC")
    ∧ (∀ t : String, classifiesAsNEC t = false → classifiesAsINT t = true →
        classifyFormType t = "FORM_1099_INT")
    ∧ (∀ t : String, classifiesAsNEC t = false → classifiesAsINT t = false →
        classifiesAsDIV t = true → classifyFormType t = "FORM_1099_DIV")
    ∧ (∀ t : String, classifiesAsNEC t = false → classifiesAsINT t = false →
        classifiesAsDIV t = false → classifiesAsMISC t = true →
        classifyFormType t = "FORM_1099_MISC")
    ∧ (∀ t : String, classifiesAsNEC t = false → classifiesAsINT t = false →
        classifiesAsDIV t = false → classifiesAsMISC t = false →
        classifiesAsR t = true → classifyFormType t = "FORM_1099_R")
    ∧ (∀ t : String, classifiesAsNEC t = false → classifiesAsINT t = false →
        classifiesAsDIV t = false → classifiesAsMISC t = false →
        classifiesAsR t = false → classifyFormType t = "UNKNOWN")
    ∧ (∀ (y : ℤ) (f : ExtractedTaxData) (k : String) (v : ℚ),
        f.formType = "UNKNOWN" → (k, v) ∈ f.amounts → 0 < v →
        k ≠ "federalIncomeTaxWithheld" →
        ∃ e ∈ (mapExtractedDataToIncomeEntries y [f]).incomeEntries,
          e.incomeType = IncomeType.OTHER_INCOME ∧ e.amount = v) := by
  refine ⟨?_, ?_, ?_, ?_, ?_, ?_, ?_⟩
  · intro t h
    simp [classifyFormType, h]
  · intro t h1 h2
    simp [classifyFormType, h1, h2]
  · intro t h1 h2 h3
    simp [classifyFormType, h1, h2, h3]
  · intro t h1 h2 h3 h4
    simp [classifyFormType, h1, h2, h3, h4]
  · intro t h1 h2 h3 h4 h5
    simp [classifyFormType, h1, h2, h3, h4, h5]
  · intro t h1 h2 h3 h4 h5
    simp [classifyFormType, h1, h2, h3, h4, h5]
  · intro y f k v hf hmem hv hk
    have hent : (mapExtractedDataToIncomeEntries y [f]).incomeEntries
        = formEntries f := by
      simp [mapExtractedDataToIncomeEntries, mapGo]
    have hdef : formEntries f = unknownFormEntries f := by
      rw [formEntries, hf]
      simp
    rw [hent, hdef, unknownFormEntries]
    refine ⟨{ incomeType := IncomeType.OTHER_INCOME,
              description := "Unknown Form: " ++ k ++ payerSuffix f.payerName,
              amount := v, payerName := f.payerName, payerTIN := f.payerTIN },
            List.mem_filterMap.mpr ⟨(k, v), hmem, ?_⟩, rfl, rfl⟩
    simp [hv, hk]

/-- The unrecognized-form sample of the catch-all scenario. -/
def unknownForm200 : ExtractedTaxData :=
  { formType := "UNKNOWN", taxYear := none, payerName := none,
    payerTIN := none, recipientName := none, recipientTIN := none,
    amounts := [("miscField", 200), ("federalIncomeTaxWithheld", 20)],
    rawText := none }

/-- Claim C7 witness: the NEC keyword wins over the INT keyword in a text
containing both; a text with no keyword classifies as UNKNOWN; the positive
amount of an UNKNOWN form lands in an OTHER_INCOME line item. -/
theorem c7_classifier_priority_and_catchall_witness :
    classifyFormType "Nonemployee compensation 5000 Interest income 100" = "FORM_1099_NEC"
    ∧ classifyFormType "a plain receipt with no keywords" = "UNKNOWN"
    ∧ ∃ e ∈ (mapExtractedDataToIncomeEntries 2023 [unknownForm200]).incomeEntries,
        e.incomeType = IncomeType.OTHER_INCOME ∧ e.amount = 200 :=
  ⟨c7_classifier_priority_and_catchall.1
      "Nonemployee compensation 5000 Interest income 100" (by decide),
   c7_classifier_priority_and_catchall.2.2.2.2.2.1
      "a plain receipt with no keywords"
      (by decide) (by decide) (by decide) (by decide) (by decide),
   c7_classifier_priority_and_catchall.2.2.2.2.2.2
      2023 unknownForm200 "miscField" 200 rfl (by decide) (by norm_num) (by decide)⟩

/-- A numeric token of the OCR text after `parseFloat`: the amount regex
yields an integer part and at most two fractional digits, so the parsed
value is `whole + cents/100` with `cents < 100`; float printing drops a
trailing zero cent digit. -/
structure NumericToken where
  whole : ℕ
  cents : ℕ
deriving DecidableEq, Repr

/-- The parsed numeric value of a token. -/
def tokenValue (t : NumericToken) : ℚ :=
  (t.whole : ℚ) + (t.cents : ℚ) / 100

/-- Number of digits of the decimal representation of `n` (1 for 0). -/
def numDigits (n : ℕ) : ℕ :=
  (Nat.toDigits 10 n).length

/-- Length of JavaScript `amt.toString()` for the parsed token value: the
digits of the integer part, plus a decimal point and one or two fractional
digits when the fractional part is non-zero. -/
def jsNumStrLen (t : NumericToken) : ℕ :=
  numDigits t.whole + (if t.cents = 0 then 0 else if t.cents % 10 = 0 then 2 else 3)

/-- The wages statistical-fallback filter of `processWithGoogleDocumentAI`
(strategy 3): value in [1000, 500000], string form at most 8 characters,
and not an all-digit string of 7 or more digits (`/^[0-9]\x7b7,\x7d$/`). -/
def wagesFilter (t : NumericToken) : Bool :=
  decide (1000 ≤ tokenValue t ∧ tokenValue t ≤ 500000 ∧ jsNumStrLen t ≤ 8
    ∧ ¬(t.cents = 0 ∧ 7 ≤ numDigits t.whole))

/-- One step of the descending insertion embedding `.sort((a, b) => b - a)`. -/
def insertDesc (x : ℚ) : List ℚ → List ℚ
  | [] => [x]
  | y :: ys => if y ≤ x then x :: y :: ys else y :: insertDesc x ys

/-- Descending sort (`.sort((a, b) => b - a)`). -/
def sortDesc : List ℚ → List ℚ
  | [] => []
  | x :: xs => insertDesc x (sortDesc xs)

/-- The filtered, parsed wage candidates of strategy 3. -/
def wagesCandidates (tokens : List NumericToken) : List ℚ :=
  (tokens.filter wagesFilter).map tokenValue

/-- Strategy-3 wages fallback: sort the candidates descending and take the
first (`numericAmounts[0]`), if any. -/
def wagesFallback (tokens : List NumericToken) : Option ℚ :=
  (sortDesc (wagesCandidates tokens)).head?

/-- The federal-tax statistical-fallback filter, applied when a wage value
was already resolved: positive, below the wage, at least 100, at most half
the wage, string form at most 8 characters. -/
def fedTaxFilter (wageValue : ℚ) (t : NumericToken) : Bool :=
  decide (0 < tokenValue t ∧ tokenValue t < wageValue ∧ 100 ≤ tokenValue t
    ∧ tokenValue t ≤ wageValue * 0.5 ∧ jsNumStrLen t ≤ 8)

/-- The filtered, parsed federal-tax candidates. -/
def fedTaxCandidates (wageValue : ℚ) (tokens : List NumericToken) : List ℚ :=
  (tokens.filter (fedTaxFilter wageValue)).map tokenValue

/-- Federal-tax statistical fallback: largest filtered candidate, if any. -/
def fedTaxFallback (tokens : List NumericToken) (wageValue : ℚ) : Option ℚ :=
  (sortDesc (fedTaxCandidates wageValue tokens)).head?

/-- Modelled from the spec: the wages filter as the claim describes it —
tokens within [1000, 500000] minus the 7-plus-digit no-decimal identifiers,
with no cap on the printed length. -/
def claimWagesFilter (t : NumericToken) : Bool :=
  decide (1000 ≤ tokenValue t ∧ tokenValue t ≤ 500000
    ∧ ¬(t.cents = 0 ∧ 7 ≤ numDigits t.whole))

/-- Modelled from the spec: the maximum of the claim-filtered tokens. -/
def claimWagesSelection (tokens : List NumericToken) : Option ℚ :=
  (sortDesc ((tokens.filter claimWagesFilter).map tokenValue)).head?

lemma insertDesc_ne_nil (x : ℚ) (l : List ℚ) : insertDesc x l ≠ [] := by
  cases l with
  | nil => simp [insertDesc]
  | cons y ys =>
      rw [insertDesc]
      split_ifs <;> simp

lemma sortDesc_eq_nil {l : List ℚ} (h : sortDesc l = []) : l = [] := by
  cases l with
  | nil => rfl
  | cons x xs => exact absurd h (insertDesc_ne_nil x (sortDesc xs))

/-- The head of the descending sort is a maximum of the list. -/
lemma sortDesc_head_max (l : List ℚ) :
    ∀ x : ℚ, (sortDesc l).head? = some x → x ∈ l ∧ ∀ y ∈ l, y ≤ x := by
  induction l with
  | nil => intro x h; simp [sortDesc] at h
  | cons a as ih =>
      intro x h
      rw [sortDesc] at h
      cases hs : sortDesc as with
      | nil =>
          rw [hs] at h
          simp [insertDesc] at h
          subst h
          have has : as = [] := sortDesc_eq_nil hs
          subst has
          refine ⟨List.mem_cons_self a [], ?_⟩
          intro y hy
          rcases List.mem_cons.mp hy with rfl | hy
          · exact le_refl _
          · simp at hy
      | cons b bs =>
          rw [hs] at h
          have hb := ih b (by rw [hs]; rfl)
          rw [insertDesc] at h
          by_cases hba : b ≤ a
          · rw [if_pos hba] at h
            simp at h
            subst h
            refine ⟨List.mem_cons_self _ _, ?_⟩
            intro y hy
            rcases List.mem_cons.mp hy with rfl | hy
            · exact le_refl _
            · exact le_trans (hb.2 y hy) hba
          · rw [if_neg hba] at h
            simp at h
            subst h
            refine ⟨List.mem_cons_of_mem a hb.1, ?_⟩
            intro y hy
            rcases List.mem_cons.mp hy with rfl | hy
            · exact le_of_not_le hba
            · exact hb.2 y hy

lemma wagesFallback_spec (tokens : List NumericToken) (w : ℚ)
    (h : wagesFallback tokens = some w) :
    (w ∈ wagesCandidates tokens ∧ ∀ v ∈ wagesCandidates tokens, v ≤ w)
    ∧ 1000 ≤ w ∧ w ≤ 500000 := by
  have hm := sortDesc_head_max (wagesCandidates tokens) w h
  refine ⟨hm, ?_⟩
  rcases List.mem_map.mp hm.1 with ⟨t, ht, hv⟩
  have hf := (List.mem_filter.mp ht).2
  rw [wagesFilter, decide_eq_true_eq] at hf
  rw [← hv]
  exact ⟨hf.1, hf.2.1⟩

/-- The token list of the C8 counterexample: a plain 2000 and the in-range
decimal token 123456.78, whose printed form is 9 characters long. -/
def cexTokens : List NumericToken := [⟨2000, 0⟩, ⟨123456, 78⟩]

lemma wagesFilter_2000 : wagesFilter ⟨2000, 0⟩ = true := by
  rw [wagesFilter, decide_eq_true_eq]
  refine ⟨by norm_num [tokenValue], by norm_num [tokenValue], by decide, by decide⟩

lemma wagesFilter_123456_78 : wagesFilter ⟨123456, 78⟩ = false := by
  rw [wagesFilter, decide_eq_false_iff_not]
  rintro ⟨-, -, h8, -⟩
  exact absurd h8 (by decide)

lemma claimWagesFilter_2000 : claimWagesFilter ⟨2000, 0⟩ = true := by
  rw [claimWagesFilter, decide_eq_true_eq]
  refine ⟨by norm_num [tokenValue], by norm_num [tokenValue], by decide⟩

lemma claimWagesFilter_123456_78 : claimWagesFilter ⟨123456, 78⟩ = true := by
  rw [claimWagesFilter, decide_eq_true_eq]
  refine ⟨by norm_num [tokenValue], by norm_num [tokenValue], by decide⟩

/-- Claim C8 counterexample: on a document containing the tokens 2000 and
123456.78, the selection the claim describes (maximum over [1000, 500000]
minus 7-plus-digit no-decimal identifiers) is 123456.78, but the code also
excludes tokens whose printed form exceeds 8 characters and selects 2000. -/
theorem c8_wages_filter_counterexample :
    wagesFallback cexTokens = some 2000
    ∧ claimWagesSelection cexTokens = some (12345678 / 100)
    ∧ ((12345678 / 100 : ℚ) ≠ 2000)
    ∧ tokenValue ⟨123456, 78⟩ = 12345678 / 100 := by
  refine ⟨?_, ?_, by norm_num, by norm_num [tokenValue]⟩
  · rw [wagesFallback, wagesCandidates, cexTokens]
    rw [List.filter_cons, wagesFilter_2000, List.filter_cons, wagesFilter_123456_78,
      List.filter_nil]
    norm_num [sortDesc, insertDesc, tokenValue]
  · rw [claimWagesSelection, cexTokens]
    rw [List.filter_cons, claimWagesFilter_2000, List.filter_cons,
      claimWagesFilter_123456_78, List.filter_nil]
    norm_num [sortDesc, insertDesc, tokenValue]

/-- Claim C8 amended: the wages fallback selects the maximum of the tokens
surviving the code filter — value within [1000, 500000], printed form at
most 8 characters, and not an all-digit 7-plus-digit identifier — so the
selected value always lies in [1000, 500000] and a 9-digit (at least 10^8)
no-decimal token is never the selected wage; the federal-tax fallback run
with a resolved wage selects only a candidate strictly below the wage and
at most 50% of it. -/
theorem c8_fallback_selection_amended :
    (∀ (tokens : List NumericToken) (w : ℚ), wagesFallback tokens = some w →
        (w ∈ wagesCandidates tokens ∧ ∀ v ∈ wagesCandidates tokens, v ≤ w)
        ∧ (1000 ≤ w ∧ w ≤ 500000))
    ∧ (∀ (tokens : List NumericToken) (t : NumericToken) (w : ℚ),
        wagesFallback tokens = some w → t.cents = 0 → (10 : ℚ) ^ 8 ≤ tokenValue t →
        w ≠ tokenValue t)
    ∧ (∀ (tokens : List NumericToken) (wageValue x : ℚ),
        fedTaxFallback tokens wageValue = some x →
        x < wageValue ∧ x ≤ wageValue * 0.5) := by
  refine ⟨?_, ?_, ?_⟩
  · intro tokens w h
    exact ⟨(wagesFallback_spec tokens w h).1, (wagesFallback_spec tokens w h).2⟩
  · intro tokens t w h _ hbig heq
    have hw := (wagesFallback_spec tokens w h).2.2
    have : (500000 : ℚ) < 10 ^ 8 := by norm_num
    rw [heq] at hw
    linarith
  · intro tokens wageValue x h
    have hm := sortDesc_head_max (fedTaxCandidates wageValue tokens) x h
    rcases List.mem_map.mp hm.1 with ⟨t, ht, hv⟩
    have hf := (List.mem_filter.mp ht).2
    rw [fedTaxFilter, decide_eq_true_eq] at hf
    rw [← hv]
    exact ⟨hf.2.1, hf.2.2.2.1⟩

lemma wagesFallback_single2000 : wagesFallback [⟨2000, 0⟩] = some 2000 := by
  rw [wagesFallback, wagesCandidates, List.filter_cons, wagesFilter_2000,
    List.filter_nil]
  norm_num [sortDesc, insertDesc, tokenValue]

lemma fedTaxFilter_500 : fedTaxFilter 2000 ⟨500, 0⟩ = true := by
  rw [fedTaxFilter, decide_eq_true_eq]
  refine ⟨by norm_num [tokenValue], by norm_num [tokenValue],
    by norm_num [tokenValue], by norm_num [tokenValue], by decide⟩

lemma fedTaxFilter_3000 : fedTaxFilter 2000 ⟨3000, 0⟩ = false := by
  rw [fedTaxFilter, decide_eq_false_iff_not]
  rintro ⟨-, hlt, -⟩
  rw [tokenValue] at hlt
  norm_num at hlt

lemma fedTaxFallback_eval : fedTaxFallback [⟨500, 0⟩, ⟨3000, 0⟩] 2000 = some 500 := by
  rw [fedTaxFallback, fedTaxCandidates, List.filter_cons, fedTaxFilter_500,
    List.filter_cons, fedTaxFilter_3000, List.filter_nil]
  norm_num [sortDesc, insertDesc, tokenValue]

lemma nineDigitValue : (10 : ℚ) ^ 8 ≤ tokenValue ⟨123456789, 0⟩ := by
  norm_num [tokenValue]

/-- Claim C8 amended, witness: the three amended clauses instantiated on
concrete token lists. -/
theorem c8_fallback_selection_amended_witness :
    (((2000 : ℚ) ∈ wagesCandidates [⟨2000, 0⟩]
        ∧ ∀ v ∈ wagesCandidates [⟨2000, 0⟩], v ≤ 2000)
      ∧ ((1000 : ℚ) ≤ 2000 ∧ (2000 : ℚ) ≤ 500000))
    ∧ ((2000 : ℚ) ≠ tokenValue ⟨123456789, 0⟩)
    ∧ ((500 : ℚ) < 2000 ∧ (500 : ℚ) ≤ 2000 * 0.5) :=
  ⟨c8_fallback_selection_amended.1 [⟨2000, 0⟩] 2000 wagesFallback_single2000,
   c8_fallback_selection_amended.2.1 [⟨2000, 0⟩] ⟨123456789, 0⟩ 2000
      wagesFallback_single2000 rfl nineDigitValue,
   c8_fallback_selection_amended.2.2 [⟨500, 0⟩, ⟨3000, 0⟩] 2000 500 fedTaxFallback_eval⟩

/-- One vendor entity of the structured-extraction result: its type tag,
mention text and confidence, each possibly absent. -/
structure DocAIEntity where
  type : Option String
  mentionText : Option String
  confidence : Option ℚ
deriving DecidableEq, Repr

/-- Embedding of the confidence assignment of `processWithGoogleDocumentAI`:
`docResult?.entities?.[0]?.confidence || 0.9` — the FIRST entity confidence
when present and truthy, else the constant 0.9. -/
def docAIConfidence (entities : List DocAIEntity) : ℚ :=
  match entities.head? with
  | some e =>
      match e.confidence with
      | some c => if c = 0 then 0.9 else c
      | none => 0.9
  | none => 0.9

/-- Modelled from the spec: the best (maximum) confidence among the vendor
entities, 0 when none carries one. -/
def bestEntityConfidence (entities : List DocAIEntity) : ℚ :=
  entities.foldr
    (fun e acc =>
      match e.confidence with
      | some c => max c acc
      | none => acc) 0

/-- The entity list of the C10 counterexample: first entity confidence 0.5,
second 0.9. -/
def cexEntities : List DocAIEntity :=
  [⟨none, none, some 0.5⟩, ⟨none, none, some 0.9⟩]

/-- Claim C10 counterexample: with entities of confidences 0.5 then 0.9 the
code takes the FIRST entity confidence 0.5, not the maximum 0.9; and with no
entities (nothing extracted) the code yields the constant 0.9, not 0. -/
theorem c10_confidence_counterexample :
    docAIConfidence cexEntities = 0.5
    ∧ bestEntityConfidence cexEntities = 0.9
    ∧ ((0.5 : ℚ) ≠ 0.9)
    ∧ docAIConfidence [] = 0.9
    ∧ ((0.9 : ℚ) ≠ 0) := by
  refine ⟨?_, ?_, by norm_num, rfl, by norm_num⟩
  · norm_num [docAIConfidence, cexEntities]
  · norm_num [bestEntityConfidence, cexEntities, max_def]

/-- Claim C10 amended: the extraction confidence is the FIRST entity's
confidence when present and non-zero; in every other case — zero or absent
first-entity confidence, or no entities at all (including when nothing could
be extracted) — it is the constant 0.9, never 0. -/
theorem c10_confidence_amended :
    (∀ (e : DocAIEntity) (es : List DocAIEntity) (c : ℚ),
        e.confidence = some c → c ≠ 0 → docAIConfidence (e :: es) = c)
    ∧ (∀ (e : DocAIEntity) (es : List DocAIEntity),
        e.confidence = some 0 → docAIConfidence (e :: es) = 0.9)
    ∧ (∀ (e : DocAIEntity) (es : List DocAIEntity),
        e.confidence = none → docAIConfidence (e :: es) = 0.9)
    ∧ docAIConfidence [] = 0.9 := by
  refine ⟨?_, ?_, ?_, rfl⟩
  · intro e es c hc h0
    simp [docAIConfidence, hc, h0]
  · intro e es hc
    simp [docAIConfidence, hc]
  · intro e es hc
    simp [docAIConfidence, hc]

/-- Claim C10 amended, witness: a single entity with non-zero confidence 1
yields confidence 1. -/
theorem c10_confidence_amended_witness :
    docAIConfidence [⟨none, none, some 1⟩] = 1 :=
  c10_confidence_amended.1 ⟨none, none, some 1⟩ [] 1 rfl (by decide)

end TaxV
